import Mathlib

/-!
Verification of the connection-handling core of the YOLO WebSocket detection
server (src/Lab Manual/Lab 12/SERVER/server.py) against its specification.

The Detector (ultralytics YOLO), the image decoder (PIL + numpy + cv2) and the
wall clock are external collaborators; they are modelled as an `Oracle`, a
record of black-box outcome functions.  A call into an external collaborator
may either return a value or raise an exception carrying a string message,
modelled as `Except String α`.  Floating-point coordinates and confidences are
modelled exactly as rationals (ℚ); byte buffers as lists of naturals.
-/

/-- Byte buffers (the JPEG frame bytes received on the wire). -/
abbrev Bytes : Type := List ℕ

/-- One raw detection as produced by the Detector: class index `cls`
(`box.cls[0]`), confidence `conf` (`box.conf[0]`) and a normalized bounding box
in corner form `(x1, y1, x2, y2)` (`box.xyxyn[0]`, server.py line 78). -/
structure RawDet where
  cls : ℕ
  conf : ℚ
  x1 : ℚ
  y1 : ℚ
  x2 : ℚ
  y2 : ℚ
deriving Repr, DecidableEq

/-- One mapped detection entry, mirroring the dict literal at server.py
lines 80–87, with its fields in the source's key order. -/
structure Detection where
  className : String
  confidence : ℚ
  x : ℚ
  y : ℚ
  width : ℚ
  height : ℚ
deriving Repr, DecidableEq

/-- The response value returned by `process_frame`: the success dict of
server.py lines 97–101 or the error dict of lines 105–109.  The error dict
always carries an empty detections list (line 108). -/
inductive Response where
  | success (detections : List Detection) (inference_time : ℚ)
  | error (message : String)
deriving Repr, DecidableEq

/-- The `status` field of a response dict (lines 98 and 106). -/
def Response.status : Response → String
  | .success _ _ => "success"
  | .error _ => "error"

/-- The `detections` field of a response dict (lines 99 and 108). -/
def Response.detections : Response → List Detection
  | .success d _ => d
  | .error _ => []

/-- The `message` field of a response dict (line 107; absent on success). -/
def Response.message : Response → Option String
  | .success _ _ => none
  | .error m => some m

/-- The `inference_time` field of a response dict (line 100; absent on
error). -/
def Response.inference_time : Response → Option ℚ
  | .success _ t => some t
  | .error _ => none

/-- Outcomes of the external collaborators invoked by `process_frame`,
parameterized by the opaque decoded-image type `Img`.
`decode` models the chain `Image.open(BytesIO(image_bytes))`, `np.array`,
`cv2.cvtColor(..., COLOR_RGB2BGR)` at server.py lines 66–68: it either yields
a pixel buffer or raises with a message.  `detect` models
`self.model(frame, verbose=False)[0]` together with the per-box tensor reads
at lines 71–78.  `names` models the class-label table `results.names`
(line 81), and `elapsed` the measured wall-clock difference
`time.time() - start_time` (line 91). -/
structure Oracle (Img : Type) where
  decode : Bytes → Except String Img
  detect : Img → Except String (List RawDet)
  names : ℕ → String
  elapsed : ℚ

/-- Mapping of one raw detection to the response entry, the dict literal at
server.py lines 80–87: the class index is resolved through `results.names`,
the corner box is converted with `width = x2 - x1` and `height = y2 - y1`
(no clamping appears in the source). -/
def mapDetection (names : ℕ → String) (b : RawDet) : Detection :=
  { className := names b.cls
    confidence := b.conf
    x := b.x1
    y := b.y1
    width := b.x2 - b.x1
    height := b.y2 - b.y1 }

/-- The frame-processing pipeline `process_frame` (server.py lines 52–109):
decode the JPEG bytes, run detection, map each raw box, and return the
success dict; any exception raised inside the `try` block (decode or
detection) is caught by `except Exception as e` (line 103) and converted to
the error dict `{status: error, message: str(e), detections: []}`. -/
def process_frame {Img : Type} (o : Oracle Img) (image_bytes : Bytes) :
    Response :=
  match o.decode image_bytes with
  | .error e => .error e
  | .ok frame =>
    match o.detect frame with
    | .error e => .error e
    | .ok boxes => .success (boxes.map (mapDetection o.names)) o.elapsed

/-- Wire events observed on one connection, from the handler's point of view:
a frame received from the `async for` (line 40) or a JSON response sent back
(line 45). -/
inductive Event where
  | recv (b : Bytes)
  | send (r : Response)
deriving Repr, DecidableEq

/-- The body of the `async for message in websocket` loop of `handle_client`
(server.py lines 40–45), run over the sequence of frames the transport
delivers: each received frame is processed by `process_frame` and its
response is sent before the next frame is read. -/
def handler_trace {Img : Type} (o : Oracle Img) : List Bytes → List Event
  | [] => []
  | b :: rest => .recv b :: .send (process_frame o b) :: handler_trace o rest

/-- The responses sent on a trace, in order. -/
def sentResponses : List Event → List Response
  | [] => []
  | .recv _ :: rest => sentResponses rest
  | .send r :: rest => r :: sentResponses rest

/-- The frames received on a trace, in order. -/
def recvFrames : List Event → List Bytes
  | [] => []
  | .recv b :: rest => b :: recvFrames rest
  | .send _ :: rest => recvFrames rest

/-- Strict request/response alternation: the trace is a sequence of
(receive, send) pairs — every frame is answered before the next is read. -/
def alternates : List Event → Bool
  | [] => true
  | .recv _ :: .send _ :: rest => alternates rest
  | _ => false

/-- Mutations of the server's active-client set `self.clients`, in program
order: `self.clients.add(websocket)` (line 37) and
`self.clients.remove(websocket)` (line 50). -/
inductive SetOp where
  | add (ws : ℕ)
  | remove (ws : ℕ)
deriving Repr, DecidableEq

/-- How the `try` block of `handle_client` (lines 39–48) terminates: the
`websockets.exceptions.ConnectionClosed` exception caught at line 47 (peer
close or connection loss, including the close triggered by an oversized
frame), or any other exception, which is not caught and propagates after the
`finally` block runs. -/
inductive ExitPath where
  | peerClosed
  | otherError (msg : String)
deriving Repr, DecidableEq

/-- Python's `set.remove` (line 50): removes the element if present, raises
`KeyError` otherwise. -/
def pySetRemove (s : Finset ℕ) (w : ℕ) : Except String (Finset ℕ) :=
  if w ∈ s then .ok (s.erase w) else .error "KeyError"

/-- The observable result of one complete run of `handle_client`
(server.py lines 33–50). -/
structure HandlerRun where
  events : List Event
  ops : List SetOp
  finalClients : Except String (Finset ℕ)
  raised : Option String

/-- One complete run of `handle_client` (server.py lines 33–50) on a
connection `ws`, starting from active-client set `clients`, given the frames
`msgs` the transport delivers before the loop terminates with `exit`:
the connection is added to the set (line 37), the request/response loop runs
(lines 40–45), and on every exit path the `finally` block removes the
connection from the set exactly once (lines 49–50); a `ConnectionClosed`
exception is swallowed (lines 47–48) while any other exception propagates
after the removal. -/
def handle_client {Img : Type} (o : Oracle Img) (clients : Finset ℕ) (ws : ℕ)
    (msgs : List Bytes) (exit : ExitPath) : HandlerRun :=
  let entered := insert ws clients
  match exit with
  | .peerClosed =>
    { events := handler_trace o msgs
      ops := [.add ws, .remove ws]
      finalClients := pySetRemove entered ws
      raised := none }
  | .otherError m =>
    { events := handler_trace o msgs
      ops := [.add ws, .remove ws]
      finalClients := pySetRemove entered ws
      raised := some m }

/-- The `max_size` argument passed to `websockets.serve` at server.py
line 124: `10*1024*1024` bytes. -/
def max_size : ℕ := 10 * 1024 * 1024

/-- Modelled from the spec and the websockets library contract configured at
server.py lines 120–125 (the enforcement code lives in the external
`websockets` dependency, not in this repository): incoming frames are
delivered to the handler in order while they are within `max_size`; the
first frame exceeding `max_size` is rejected at the transport layer — the
connection is closed (a `ConnectionClosed` seen by the handler, returned
here as the `true` flag) and neither it nor any later frame reaches the
handler. -/
def deliver : List Bytes → List Bytes × Bool
  | [] => ([], false)
  | b :: rest =>
    if b.length ≤ max_size then (b :: (deliver rest).1, (deliver rest).2)
    else ([], true)

/-- A JSON value, as produced by `json.dumps` at server.py line 45.  Objects
keep the insertion order of the Python dict literals they serialize. -/
inductive Json where
  | str (s : String)
  | num (q : ℚ)
  | arr (l : List Json)
  | obj (l : List (String × Json))

/-- The top-level keys of a JSON object, in serialization order. -/
def Json.keys : Json → List String
  | .obj l => l.map Prod.fst
  | _ => []

/-- Serialization of one detection entry: the dict literal at server.py
lines 80–87, keys in source order. -/
def Detection.toJson (d : Detection) : Json :=
  .obj [("className", .str d.className), ("confidence", .num d.confidence),
        ("x", .num d.x), ("y", .num d.y),
        ("width", .num d.width), ("height", .num d.height)]

/-- Serialization of a response: the success dict literal of server.py
lines 97–101 or the error dict literal of lines 105–109, keys in source
order. -/
def Response.toJson : Response → Json
  | .success d t =>
    .obj [("status", .str "success"),
          ("detections", .arr (d.map Detection.toJson)),
          ("inference_time", .num t)]
  | .error m =>
    .obj [("status", .str "error"), ("message", .str m),
          ("detections", .arr [])]

/-- The Detection keys required by the specification's data model (spec §3):
`{ label, confidence, x, y, width, height }`, with `label` as the class-name
field.  Stated from the spec's words, to be compared with the keys the
source actually serializes. -/
def specDetectionKeys : List String :=
  ["label", "confidence", "x", "y", "width", "height"]

/-- Scheduler model for claim C9.  The server runs on a single asyncio event
loop; a coroutine gives up the loop only at a suspension point (an `await`
that actually suspends).  One iteration of `handle_client`'s loop has
suspension points at `async for` (line 40, waiting for the next frame) and
at `websocket.send` (line 45); `await self.process_frame(message)` (line 42)
awaits a coroutine whose body (lines 62–101) contains no `await` at all, so
decoding (line 66–68), the YOLO inference call `self.model(frame, ...)`
(line 71) and response construction (lines 74–101) run as one atomic block
during which no other coroutine is scheduled. -/
inductive MicroOp where
  | recvOp
  | decodeOp
  | detectOp
  | respondOp
  | sendOp
deriving Repr, DecidableEq

/-- The segments of one `handle_client` loop iteration for one frame, split
at the suspension points of server.py lines 40, 42 and 45: the middle
segment is the whole `process_frame` body, which contains no suspension
point. -/
def handlerSegments (id : ℕ) : List (List (ℕ × MicroOp)) :=
  [[(id, .recvOp)],
   [(id, .decodeOp), (id, .detectOp), (id, .respondOp)],
   [(id, .sendOp)]]

/-- Fuel-indexed worker for `interleavings`; the fuel strictly bounds the
total length of the two lists, making the recursion structural. -/
def interleavingsAux {α : Type} : ℕ → List α → List α → List (List α)
  | 0, _, _ => []
  | _ + 1, [], ys => [ys]
  | _ + 1, x :: xs, [] => [x :: xs]
  | n + 1, x :: xs, y :: ys =>
    (interleavingsAux n xs (y :: ys)).map (fun t => x :: t) ++
      (interleavingsAux n (x :: xs) ys).map (fun t => y :: t)

/-- All interleavings of two lists, keeping each list's internal order: the
schedules a single-threaded cooperative event loop can produce from two
runnable coroutines, at the granularity of the scheduled items. -/
def interleavings {α : Type} (xs ys : List α) : List (List α) :=
  interleavingsAux (xs.length + ys.length + 1) xs ys

/-- All event-loop schedules of two connections each processing one frame:
the loop interleaves the two handlers at segment granularity (a segment runs
to its next suspension point without preemption), and each schedule is
flattened to the sequence of executed micro-operations. -/
def systemTraces : List (List (ℕ × MicroOp)) :=
  (interleavings (handlerSegments 0) (handlerSegments 1)).map List.flatten

/-- Whether, in schedule `t`, connection 1 executes any micro-operation
strictly between connection 0's decode step and its response-construction
step — that is, whether connection 1 makes progress while connection 0's
Detector inference is in flight. -/
def progressDuringInference (t : List (ℕ × MicroOp)) : Bool :=
  (List.range t.length).any fun j =>
    t.indexOf (0, .decodeOp) < j ∧ j < t.indexOf (0, .respondOp) ∧
      (t.getD j (0, .recvOp)).1 = 1

/-- Whether, in schedule `t`, connection 0's decode, inference and
response-construction steps are consecutive, with no other connection's
step interleaved. -/
def inferenceBlockAtomic (t : List (ℕ × MicroOp)) : Bool :=
  t.indexOf (0, .detectOp) = t.indexOf (0, .decodeOp) + 1 &&
    t.indexOf (0, .respondOp) = t.indexOf (0, .decodeOp) + 2

/-- Server state visible to `process_frame`: the active-client set
`self.clients` and the identity of the model reference `self.model`
(server.py lines 27–28). -/
structure ServerState where
  clients : Finset ℕ
  modelId : ℕ
deriving DecidableEq

/-- State-passing form of `process_frame` (server.py lines 52–109): the body
reads `self.model` (through the oracle) and assigns no attribute of `self`,
so the state is threaded through unchanged. -/
def process_frameS {Img : Type} (o : Oracle Img) (st : ServerState)
    (image_bytes : Bytes) : Response × ServerState :=
  (process_frame o image_bytes, st)

/-- A concrete oracle whose decoder raises, as PIL does on an empty or
truncated byte buffer, with PIL's (non-empty) exception message. -/
def failOracle : Oracle ℕ :=
  { decode := fun _ => .error "cannot identify image file"
    detect := fun _ => .ok []
    names := fun _ => "person"
    elapsed := 1/100 }

/-- A concrete oracle whose Detector returns one raw detection with
confidence 1/2 and corner box (1/10, 1/5, 1/2, 7/10). -/
def okOracle : Oracle ℕ :=
  { decode := fun _ => .ok 0
    detect := fun _ => .ok [⟨0, 1/2, 1/10, 1/5, 1/2, 7/10⟩]
    names := fun n => if n = 0 then "person" else "object"
    elapsed := 3/100 }

/-- A concrete oracle whose Detector returns reversed corner coordinates
(x2 < x1 and y2 < y1). -/
def negOracle : Oracle ℕ :=
  { decode := fun _ => .ok 0
    detect := fun _ => .ok [⟨0, 1/2, 1, 1, 0, 0⟩]
    names := fun _ => "person"
    elapsed := 0 }

/-- A sample mapped detection entry. -/
def sampleDetection : Detection := ⟨"person", 1/2, 1/10, 1/5, 2/5, 1/2⟩

/-- An incoming frame one byte over the configured maximum size. -/
def bigFrame : Bytes := List.replicate (max_size + 1) 0

theorem sentResponses_handler_trace {Img : Type} (o : Oracle Img)
    (msgs : List Bytes) :
    sentResponses (handler_trace o msgs) = msgs.map (process_frame o) := by
  induction msgs with
  | nil => rfl
  | cons b rest ih => simp [handler_trace, sentResponses, ih]

theorem recvFrames_handler_trace {Img : Type} (o : Oracle Img)
    (msgs : List Bytes) :
    recvFrames (handler_trace o msgs) = msgs := by
  induction msgs with
  | nil => rfl
  | cons b rest ih => simp [handler_trace, recvFrames, ih]

theorem alternates_handler_trace {Img : Type} (o : Oracle Img)
    (msgs : List Bytes) :
    alternates (handler_trace o msgs) = true := by
  induction msgs with
  | nil => rfl
  | cons b rest ih => simpa [handler_trace, alternates] using ih

theorem deliver_sound (incoming : List Bytes) :
    (∀ b ∈ (deliver incoming).1, b.length ≤ max_size) ∧
    (∀ b ∈ incoming, max_size < b.length →
      b ∉ (deliver incoming).1 ∧ (deliver incoming).2 = true) := by
  induction incoming with
  | nil => simp [deliver]
  | cons a rest ih =>
    by_cases ha : a.length ≤ max_size
    · refine ⟨?_, ?_⟩
      · intro b hb
        simp only [deliver, if_pos ha, List.mem_cons] at hb
        rcases hb with rfl | hb
        · exact ha
        · exact ih.1 b hb
      · intro b hb hbig
        rcases List.mem_cons.mp hb with rfl | hb
        · exact absurd ha (not_le.mpr hbig)
        · have h2 := ih.2 b hb hbig
          refine ⟨?_, ?_⟩
          · simp only [deliver, if_pos ha, List.mem_cons, not_or]
            refine ⟨?_, h2.1⟩
            intro heq
            exact absurd (heq ▸ ha) (not_le.mpr hbig)
          · simpa [deliver, if_pos ha] using h2.2
    · refine ⟨?_, ?_⟩
      · intro b hb
        simp [deliver, if_neg ha] at hb
      · intro b hb hbig
        simp [deliver, if_neg ha]

/-- C1: for every input byte sequence, any exception raised during decode or
detection inside `process_frame` is caught at the pipeline boundary and
converted into a Response with status "error", a plain string message, and
an empty detections list; `process_frame` always returns a Response (it is a
total function of the oracle outcomes), so no exception propagates out. -/
theorem C1_exceptions_become_error_response {Img : Type} (o : Oracle Img)
    (b : Bytes) (e : String)
    (h : o.decode b = .error e ∨
      ∃ f, o.decode b = .ok f ∧ o.detect f = .error e) :
    process_frame o b = .error e ∧
    (process_frame o b).status = "error" ∧
    (process_frame o b).message = some e ∧
    (process_frame o b).detections = [] := by
  rcases h with h | ⟨f, hf, hd⟩
  · simp [process_frame, h, Response.status, Response.message,
      Response.detections]
  · simp [process_frame, hf, hd, Response.status, Response.message,
      Response.detections]

/-- Witness for C1 at a concrete failing decoder and empty input. -/
theorem C1_witness :
    process_frame failOracle [] = .error "cannot identify image file" ∧
    (process_frame failOracle []).status = "error" ∧
    (process_frame failOracle []).message =
      some "cannot identify image file" ∧
    (process_frame failOracle []).detections = [] :=
  C1_exceptions_become_error_response failOracle [] _ (Or.inl rfl)

/-- C2: for a single connection, the handler sends exactly one response per
frame received, responses appear in the same order as their frames, each
response is the processing result of its own frame, and the trace strictly
alternates receive/send — a frame is fully answered before the next is
read. -/
theorem C2_one_response_per_frame_in_order {Img : Type} (o : Oracle Img)
    (msgs : List Bytes) :
    sentResponses (handler_trace o msgs) = msgs.map (process_frame o) ∧
    (sentResponses (handler_trace o msgs)).length = msgs.length ∧
    recvFrames (handler_trace o msgs) = msgs ∧
    alternates (handler_trace o msgs) = true :=
  ⟨sentResponses_handler_trace o msgs,
   by rw [sentResponses_handler_trace o msgs, List.length_map],
   recvFrames_handler_trace o msgs,
   alternates_handler_trace o msgs⟩

/-- C3: when decode succeeds and the Detector returns N raw detections, the
response is a success with exactly N entries; positionally, each entry has
width x2 − x1 and height y2 − y1 computed from its own raw detection's
corners, and each entry's confidence lies in [0,1] whenever the Detector's
confidences do. -/
theorem C3_detection_mapping {Img : Type} (o : Oracle Img) (b : Bytes)
    (frame : Img) (boxes : List RawDet)
    (hdec : o.decode b = .ok frame) (hdet : o.detect frame = .ok boxes)
    (hconf : ∀ r ∈ boxes, 0 ≤ r.conf ∧ r.conf ≤ 1) :
    (process_frame o b).status = "success" ∧
    (process_frame o b).detections.length = boxes.length ∧
    List.Forall₂
      (fun d r => d.width = r.x2 - r.x1 ∧ d.height = r.y2 - r.y1 ∧
        d.confidence = r.conf ∧ d.className = o.names r.cls)
      (process_frame o b).detections boxes ∧
    (∀ d ∈ (process_frame o b).detections,
      0 ≤ d.confidence ∧ d.confidence ≤ 1) := by
  have hpf : process_frame o b =
      .success (boxes.map (mapDetection o.names)) o.elapsed := by
    simp [process_frame, hdec, hdet]
  rw [hpf]
  refine ⟨rfl, ?_, ?_, ?_⟩
  · simp [Response.detections]
  · simp only [Response.detections]
    rw [List.forall₂_map_left_iff]
    rw [List.forall₂_same]
    intro r _
    exact ⟨rfl, rfl, rfl, rfl⟩
  · intro d hd
    simp only [Response.detections, List.mem_map] at hd
    obtain ⟨r, hr, rfl⟩ := hd
    exact hconf r hr

/-- Witness for C3 at a concrete oracle returning one detection of
confidence 1/2. -/
theorem C3_witness :
    (process_frame okOracle []).status = "success" ∧
    (process_frame okOracle []).detections.length = 1 ∧
    ∀ d ∈ (process_frame okOracle []).detections,
      0 ≤ d.confidence ∧ d.confidence ≤ 1 := by
  have h := C3_detection_mapping okOracle [] 0
    [⟨0, 1/2, 1/10, 1/5, 1/2, 7/10⟩] rfl rfl ?_
  · exact ⟨h.1, h.2.1, h.2.2.2⟩
  · intro r hr
    rw [List.mem_singleton] at hr
    subst hr
    norm_num

/-- C4: a frame that fails to decode with PIL message `e` yields an error
response carrying message `e` (non-empty whenever the decoder's message is,
as PIL's messages are) and an empty detections list, and the connection
stays usable: the handler's trace continues with the remaining frames, each
answered normally. -/
theorem C4_decode_failure_keeps_connection {Img : Type} (o : Oracle Img)
    (b : Bytes) (e : String) (msgs : List Bytes)
    (hdec : o.decode b = .error e) (hne : e ≠ "") :
    (process_frame o b).status = "error" ∧
    (∃ m, (process_frame o b).message = some m ∧ m ≠ "") ∧
    (process_frame o b).detections = [] ∧
    handler_trace o (b :: msgs) =
      .recv b :: .send (.error e) :: handler_trace o msgs ∧
    sentResponses (handler_trace o (b :: msgs)) =
      .error e :: msgs.map (process_frame o) := by
  have hpf : process_frame o b = .error e := by simp [process_frame, hdec]
  refine ⟨?_, ⟨e, ?_, hne⟩, ?_, ?_, ?_⟩
  · rw [hpf]; rfl
  · rw [hpf]; rfl
  · rw [hpf]; rfl
  · rw [handler_trace, hpf]
  · rw [handler_trace, sentResponses, sentResponses, hpf,
      sentResponses_handler_trace o msgs]

/-- Witness for C4 at a concrete failing decoder, with one further frame
following the bad one. -/
theorem C4_witness :
    (process_frame failOracle []).status = "error" ∧
    (∃ m, (process_frame failOracle []).message = some m ∧ m ≠ "") ∧
    (process_frame failOracle []).detections = [] ∧
    handler_trace failOracle [[], [7]] =
      .recv [] :: .send (.error "cannot identify image file") ::
        handler_trace failOracle [[7]] ∧
    sentResponses (handler_trace failOracle [[], [7]]) =
      .error "cannot identify image file" ::
        [[7]].map (process_frame failOracle) :=
  C4_decode_failure_keeps_connection failOracle [] "cannot identify image file"
    [[7]] rfl (by decide)

/-- C5 is refuted: the source maps width and height as plain differences
(server.py lines 85–86) with no clamping, so a Detector output with
reversed corners (x2 < x1, y2 < y1) yields a mapped width and height of −1,
not the claimed 0. -/
theorem C5_counterexample :
    (process_frame negOracle []).detections.map Detection.width = [-1] ∧
    (process_frame negOracle []).detections.map Detection.height = [-1] ∧
    (process_frame negOracle []).detections.map Detection.width ≠ [0] := by
  have h : (process_frame negOracle []).detections =
      [mapDetection negOracle.names ⟨0, 1/2, 1, 1, 0, 0⟩] := rfl
  rw [h]
  refine ⟨?_, ?_, ?_⟩ <;> simp [mapDetection, negOracle]

/-- C5 (amended): each mapped width and height is the plain difference
x2 − x1 respectively y2 − y1 with no clamping; it is nonnegative whenever
the Detector orders the corners correctly (x1 ≤ x2, y1 ≤ y2), and negative
whenever the corners are reversed. -/
theorem C5_width_height_unclamped (names : ℕ → String) (r : RawDet) :
    (mapDetection names r).width = r.x2 - r.x1 ∧
    (mapDetection names r).height = r.y2 - r.y1 ∧
    (r.x1 ≤ r.x2 → 0 ≤ (mapDetection names r).width) ∧
    (r.y1 ≤ r.y2 → 0 ≤ (mapDetection names r).height) ∧
    (r.x2 < r.x1 → (mapDetection names r).width < 0) := by
  refine ⟨rfl, rfl, ?_, ?_, ?_⟩ <;> intro h
  · exact sub_nonneg.mpr h
  · exact sub_nonneg.mpr h
  · exact sub_neg.mpr h

/-- Witness for the amended C5 at a concrete well-ordered box. -/
theorem C5_witness :
    0 ≤ (mapDetection okOracle.names ⟨0, 1/2, 1/10, 1/5, 1/2, 7/10⟩).width ∧
    0 ≤ (mapDetection okOracle.names ⟨0, 1/2, 1/10, 1/5, 1/2, 7/10⟩).height := by
  have h := C5_width_height_unclamped okOracle.names
    ⟨0, 1/2, 1/10, 1/5, 1/2, 7/10⟩
  exact ⟨h.2.2.1 (by norm_num), h.2.2.2.1 (by norm_num)⟩

/-- C6 is refuted: the serialized detection entry keys its class-name field
`className` (server.py line 81), not `label` as the specification's data
model requires. -/
theorem C6_counterexample :
    (Detection.toJson sampleDetection).keys ≠ specDetectionKeys ∧
    ¬ "label" ∈ (Detection.toJson sampleDetection).keys ∧
    "className" ∈ (Detection.toJson sampleDetection).keys := by
  refine ⟨?_, ?_, ?_⟩ <;>
    simp [Detection.toJson, Json.keys, specDetectionKeys, sampleDetection]

/-- C6 (amended): every serialized response uses the source's field names:
the top-level keys are (status, detections, inference_time) on success and
(status, message, detections) on error, and every detection entry is keyed
(className, confidence, x, y, width, height), with `className` — not
`label` — as the class-name field. -/
theorem C6_wire_keys {Img : Type} (o : Oracle Img) (b : Bytes) :
    ((process_frame o b).toJson.keys =
        ["status", "detections", "inference_time"] ∨
      (process_frame o b).toJson.keys = ["status", "message", "detections"]) ∧
    ∀ d ∈ (process_frame o b).detections,
      (Detection.toJson d).keys =
        ["className", "confidence", "x", "y", "width", "height"] := by
  constructor
  · cases hp : process_frame o b with
    | success d t => exact Or.inl rfl
    | error m => exact Or.inr rfl
  · intro d _
    rfl

/-- Witness for the amended C6 at a concrete success response with one
detection entry. -/
theorem C6_witness :
    ((process_frame okOracle []).toJson.keys =
        ["status", "detections", "inference_time"] ∨
      (process_frame okOracle []).toJson.keys =
        ["status", "message", "detections"]) ∧
    (Detection.toJson
        (mapDetection okOracle.names ⟨0, 1/2, 1/10, 1/5, 1/2, 7/10⟩)).keys =
      ["className", "confidence", "x", "y", "width", "height"] := by
  have h := C6_wire_keys okOracle []
  exact ⟨h.1, h.2 _ (List.mem_singleton_self _)⟩

/-- C7: on every exit path of `handle_client` (peer close or any other
exception), the connection is removed from the active-client set exactly
once — the operation log is precisely one add followed by one remove — and
the final set equals the set before the connection was accepted. -/
theorem C7_deregistration_exactly_once {Img : Type} (o : Oracle Img)
    (clients : Finset ℕ) (ws : ℕ) (msgs : List Bytes) (exit : ExitPath)
    (h : ws ∉ clients) :
    (handle_client o clients ws msgs exit).finalClients = .ok clients ∧
    (handle_client o clients ws msgs exit).ops = [.add ws, .remove ws] ∧
    ((handle_client o clients ws msgs exit).ops.count (.remove ws)) = 1 := by
  have hrem : pySetRemove (insert ws clients) ws = .ok clients := by
    rw [pySetRemove, if_pos (Finset.mem_insert_self ws clients),
      Finset.erase_insert h]
  cases exit <;> refine ⟨hrem, rfl, ?_⟩ <;>
    show ([SetOp.add ws, SetOp.remove ws].count (SetOp.remove ws)) = 1 <;>
    simp [List.count_cons]

/-- Witness for C7 at a concrete fresh connection and empty baseline set. -/
theorem C7_witness :
    (handle_client failOracle ∅ 5 [] ExitPath.peerClosed).finalClients =
      .ok ∅ ∧
    (handle_client failOracle ∅ 5 [] ExitPath.peerClosed).ops =
      [.add 5, .remove 5] ∧
    ((handle_client failOracle ∅ 5 []
        ExitPath.peerClosed).ops.count (.remove 5)) = 1 :=
  C7_deregistration_exactly_once failOracle ∅ 5 [] .peerClosed
    (Finset.not_mem_empty 5)

/-- C8: the configured maximum message size is 10 MiB; every frame the
transport delivers to the handler is within the maximum, the handler's loop
reads exactly the delivered frames, and any incoming frame exceeding the
maximum is never delivered (so `process_frame` is never invoked on it) and
triggers a connection-level close instead of a processing-error response. -/
theorem C8_oversized_frames_rejected {Img : Type} (o : Oracle Img)
    (incoming : List Bytes) :
    max_size = 10 * 1024 * 1024 ∧
    (∀ b ∈ (deliver incoming).1, b.length ≤ max_size) ∧
    recvFrames (handler_trace o (deliver incoming).1) =
      (deliver incoming).1 ∧
    (∀ b ∈ incoming, max_size < b.length →
      b ∉ (deliver incoming).1 ∧ (deliver incoming).2 = true) :=
  ⟨rfl, (deliver_sound incoming).1,
   recvFrames_handler_trace o (deliver incoming).1,
   (deliver_sound incoming).2⟩

/-- Witness for C8: a frame one byte over the maximum is not delivered and
closes the connection. -/
theorem C8_witness :
    bigFrame ∉ (deliver [bigFrame]).1 ∧ (deliver [bigFrame]).2 = true := by
  have h := C8_oversized_frames_rejected failOracle [bigFrame]
  refine h.2.2.2 bigFrame (List.mem_singleton_self _) ?_
  simp [bigFrame]

/-- C9 is refuted: the claim asserts that some event-loop schedule lets the
other connection make progress while one connection's Detector inference is
in flight; but `process_frame` contains no suspension point, so in every
schedule of two concurrent handlers no step of connection 1 falls strictly
between connection 0's decode step and its response-construction step. -/
theorem C9_counterexample :
    systemTraces.any progressDuringInference = false := by decide

/-- C9 (amended): a Detector inference monopolizes the single shared asyncio
event loop: in every schedule of two concurrent handlers, connection 0's
decode, inference and response-construction steps are consecutive, with no
step of another connection interleaved — one slow inference therefore
prevents every other connection from making progress until it completes. -/
theorem C9_inference_blocks_event_loop :
    systemTraces.all inferenceBlockAtomic = true := by decide

/-- C10: processing a frame has no effect on server state — for every oracle
outcome `process_frame` leaves the active-client set and the model reference
unchanged and returns exactly the pipeline's response — while the client set
is mutated only by `handle_client`, once at entry (add) and once at exit
(remove), on every exit path. -/
theorem C10_process_frame_pure {Img : Type} (o : Oracle Img)
    (st : ServerState) (b : Bytes) (clients : Finset ℕ) (ws : ℕ)
    (msgs : List Bytes) (exit : ExitPath) :
    (process_frameS o st b).2 = st ∧
    (process_frameS o st b).2.clients = st.clients ∧
    (process_frameS o st b).2.modelId = st.modelId ∧
    (process_frameS o st b).1 = process_frame o b ∧
    (handle_client o clients ws msgs exit).ops = [.add ws, .remove ws] := by
  cases exit <;> exact ⟨rfl, rfl, rfl, rfl, rfl⟩

/-- Sanity check: the two-connection system has the full set of twenty
segment-level schedules, so the refutation of C9 does not hold vacuously. -/
theorem systemTraces_complete : systemTraces.length = 20 := by decide

/-- Sanity check: the progress checker does recognize a (hypothetical)
preemptive schedule in which connection 1 runs between connection 0's
decode and response-construction steps — no such schedule is produced by
the cooperative event loop. -/
theorem progressDuringInference_not_vacuous :
    progressDuringInference
      [(0, .recvOp), (0, .decodeOp), (1, .recvOp), (0, .detectOp),
       (0, .respondOp), (0, .sendOp)] = true ∧
    inferenceBlockAtomic
      [(0, .recvOp), (0, .decodeOp), (1, .recvOp), (0, .detectOp),
       (0, .respondOp), (0, .sendOp)] = false := by decide

/-- Sanity check: the alternation checker rejects a pipelined trace that
reads a second frame before answering the first. -/
theorem alternates_not_vacuous :
    alternates [.recv [], .recv [], .send (.error "x"),
      .send (.error "x")] = false := by decide
